import Mathlib

/-!
Shallow embedding of the client-side filtering and map-state logic of the
real-estate tracker (source: src/src/components/Map.tsx).

Numbers appearing as JavaScript floats (prices, sizes, coordinates) are
modelled as rationals; timestamps in milliseconds and construction years are
modelled as integers.  Day truncation (the source zeroes the time of day via
Date.setHours) is modelled as flooring to a multiple of a day in UTC; the
fixed timezone offset is irrelevant to every property proved here.
-/

namespace RETracker

/-- Milliseconds per day (source constant DAY_MS). -/
def DAY_MS : ℤ := 24 * 60 * 60 * 1000

/-- Hard ceiling for the derived price bound (source constant PRICE_FILTER_CAP). -/
def PRICE_FILTER_CAP : ℚ := 1000000

/-- Capacity of the compare list (source constant MAX_COMPARE_ITEMS). -/
def MAX_COMPARE_ITEMS : ℕ := 4

/-- The JavaScript Number.EPSILON constant, used by the source as a guard
against a zero denominator in the ray-casting test. -/
def numberEpsilon : ℚ := 1 / 2 ^ 52

/-- Truncate a millisecond timestamp to the start of its day
(source helper toDayStart; setHours(0,0,0,0) modelled as a UTC floor;
integer division on ℤ rounds toward negative infinity for this positive
divisor, matching the behaviour of Date on any timestamp). -/
def toDayStart (timestamp : ℤ) : ℤ :=
  timestamp / DAY_MS * DAY_MS

/-- One entry of a price-history series.  The source stores recorded_at as a
string and runs it through Date.parse, discarding entries whose parse is not
finite; here recorded_at is the parsed millisecond timestamp, none when the
field is missing or unparseable. -/
structure PriceHistoryEntry where
  price : Option ℚ
  recorded_at : Option ℤ
deriving DecidableEq

/-- A property listing (source type PropertyRecord).  The location field
holds the coordinate pair produced by parseLocationCoordinates, none when
neither of the two source encodings matched; presentation-only fields
(title, currency, rooms, bathrooms, url, image_url) play no part in the
logic embedded here and are omitted. -/
structure PropertyRecord where
  id : String
  price : ℚ
  size_m2 : ℚ
  year_built : Option ℤ
  location : Option (ℚ × ℚ)
  price_history : List PriceHistoryEntry
  created_at : Option ℤ
deriving DecidableEq

/-- Day-truncated timestamps of the parseable price-history entries of a
listing (source helper getPropertyHistoryDates). -/
def getPropertyHistoryDates (property : PropertyRecord) : List ℤ :=
  (property.price_history.filterMap (fun item => item.recorded_at)).map toDayStart

/-- Ray-casting point-in-polygon test (source helper isPointInPolygon).
The loop walks each vertex i paired with its predecessor j (wrapping to the
last vertex for i = 0) and flips the inside flag on each crossing edge; the
crossing test is skipped when both edge endpoints are on the same side of
the horizontal ray, and the denominator is replaced by Number.EPSILON when
it would be zero. -/
def isPointInPolygon (point : ℚ × ℚ) (polygon : List (ℚ × ℚ)) : Bool :=
  if polygon.length < 3 then false
  else
    (List.range polygon.length).foldl
      (fun inside i =>
        let a := polygon.getD i (0, 0)
        let b := polygon.getD (if i = 0 then polygon.length - 1 else i - 1) (0, 0)
        if (a.2 > point.2) ↔ (b.2 > point.2) then inside
        else if point.1 <
            (b.1 - a.1) * (point.2 - a.2) /
              (if b.2 - a.2 = 0 then numberEpsilon else b.2 - a.2) + a.1 then
          !inside
        else inside)
      false

/-- Visibility switches for the four price-per-area buckets
(source state visibleCategories). -/
structure VisibleCategories where
  cheap : Bool
  medium : Bool
  expensive : Bool
  unknown : Bool
deriving DecidableEq

/-- The filter facets read by the map data sync effect: the four selected
ranges, the category switches, the derived upper timeline bound, and the
polygon search state. -/
structure FilterState where
  visibleCategories : VisibleCategories
  sizeRange : ℚ × ℚ
  priceRange : ℚ × ℚ
  yearRange : ℤ × ℤ
  dateRange : ℤ × ℤ
  maxDateAvailable : ℤ
  isPolygonClosed : Bool
  polygonPoints : List (ℚ × ℚ)
deriving DecidableEq

/-- Step 0 of the filter: a listing with positive price must have its price
inside the selected price range, inclusive; price ≤ 0 bypasses the check. -/
def pricePass (priceRange : ℚ × ℚ) (price : ℚ) : Bool :=
  if price > 0 then
    if price < priceRange.1 ∨ price > priceRange.2 then false else true
  else true

/-- Step 1 of the filter: a listing with positive size must have its size
inside the selected size range, inclusive; size 0 bypasses the check. -/
def sizePass (sizeRange : ℚ × ℚ) (size : ℚ) : Bool :=
  if size > 0 then
    if size < sizeRange.1 ∨ size > sizeRange.2 then false else true
  else true

/-- Step 2 of the filter: bucket the listing by price per square metre
(unknown when size is 0, cheap below 3000, medium below 5000, expensive
otherwise) and require that bucket to be visible. -/
def categoryPass (vc : VisibleCategories) (size pricePerM2 : ℚ) : Bool :=
  if size = 0 then vc.unknown
  else if pricePerM2 < 3000 then vc.cheap
  else if pricePerM2 < 5000 then vc.medium
  else vc.expensive

/-- Step 3 of the filter: a listing with a present, positive construction
year must have it inside the selected year range, inclusive; an absent or
non-positive year bypasses the check. -/
def yearPass (yearRange : ℤ × ℤ) (year_built : Option ℤ) : Bool :=
  match year_built with
  | none => true
  | some y =>
    if y > 0 then
      if y < yearRange.1 ∨ y > yearRange.2 then false else true
    else true

/-- Step 4 of the filter: the history day-timestamps of the listing (the
day-truncated upper timeline bound standing in when there are none) must
meet the window from the day-truncated selected start to the day-truncated
derived maximum date. -/
def timelinePass (dateRange : ℤ × ℤ) (maxDateAvailable : ℤ)
    (property : PropertyRecord) : Bool :=
  let rangeStart := toDayStart dateRange.1
  let rangeEnd := toDayStart maxDateAvailable
  let historyDates := getPropertyHistoryDates property
  let fallbackDate := toDayStart maxDateAvailable
  let datesToCheck := if historyDates = [] then [fallbackDate] else historyDates
  datesToCheck.any fun date => decide (rangeStart ≤ date ∧ date ≤ rangeEnd)

/-- Step 5 of the filter: when the polygon is closed with at least three
points the listing coordinate must lie inside it; otherwise no constraint. -/
def polygonPass (isPolygonClosed : Bool) (polygonPoints : List (ℚ × ℚ))
    (coordinates : ℚ × ℚ) : Bool :=
  if isPolygonClosed = true ∧ 3 ≤ polygonPoints.length then
    isPointInPolygon coordinates polygonPoints
  else true

/-- The complete per-listing inclusion test of the map data sync effect
(source lines 837-878): the conjunction of the six independent facet
checks, with price per square metre derived as in the source (0 when the
size is 0). -/
def propertyFilter (s : FilterState) (property : PropertyRecord)
    (coordinates : ℚ × ℚ) : Bool :=
  let size := property.size_m2
  let pricePerM2 := if size > 0 then property.price / size else 0
  pricePass s.priceRange property.price &&
  sizePass s.sizeRange size &&
  categoryPass s.visibleCategories size pricePerM2 &&
  yearPass s.yearRange property.year_built &&
  timelinePass s.dateRange s.maxDateAvailable property &&
  polygonPass s.isPolygonClosed s.polygonPoints coordinates

/-- The filtered listing set pushed to the map source: listings that
resolve a coordinate pair, paired with it, then filtered by the predicate. -/
def filterFeatures (s : FilterState) (properties : List PropertyRecord) :
    List (PropertyRecord × (ℚ × ℚ)) :=
  (properties.filterMap fun property =>
      property.location.map fun coordinates => (property, coordinates)).filter
    fun pc => propertyFilter s pc.1 pc.2

/-- Derived size bound state: the available maximum and the selected range. -/
structure SizeBounds where
  maxSizeAvailable : ℚ
  sizeRange : ℚ × ℚ
deriving DecidableEq

/-- Initial size bound state (source useState initialisers, lines 184-185). -/
def initialSizeBounds : SizeBounds :=
  { maxSizeAvailable := 500, sizeRange := (0, 500) }

/-- One run of the size bounds effect (source lines 748-757): with a
non-empty listing array, round the maximum observed size up to the nearest
10; when that exceeds the stored available maximum, widen it and reset the
selected range to the new full span, otherwise leave the state alone. -/
def updateSizeBounds (properties : List PropertyRecord) (st : SizeBounds) :
    SizeBounds :=
  match properties with
  | [] => st
  | p :: ps =>
    let maxSize := (ps.map (fun q => q.size_m2)).foldl max p.size_m2
    let m : ℚ := ((⌈maxSize / 10⌉ * 10 : ℤ) : ℚ)
    if m > st.maxSizeAvailable then
      { maxSizeAvailable := m, sizeRange := (0, m) }
    else st

/-- Derived price bound state: available minimum and maximum and the
selected range. -/
structure PriceBounds where
  minPriceAvailable : ℚ
  maxPriceAvailable : ℚ
  priceRange : ℚ × ℚ
deriving DecidableEq

/-- Initial price bound state (source useState initialisers, lines 188-190). -/
def initialPriceBounds : PriceBounds :=
  { minPriceAvailable := 0, maxPriceAvailable := 5000000, priceRange := (0, 5000000) }

/-- The positive observed prices of a listing array (the mapped and
filtered list the price bounds effect starts from). -/
def positivePrices (properties : List PropertyRecord) : List ℚ :=
  (properties.map (fun p => p.price)).filter fun price => decide (price > 0)

/-- One run of the price bounds effect (source lines 760-773): over the
positive observed prices, floor the minimum and ceil the maximum to the
nearest 10000, cap the maximum at PRICE_FILTER_CAP, clamp the minimum to
the capped maximum, and reset both available bounds and the selected range;
with no positive price the state is left alone. -/
def updatePriceBounds (properties : List PropertyRecord) (st : PriceBounds) :
    PriceBounds :=
  match properties with
  | [] => st
  | p :: ps =>
    match positivePrices (p :: ps) with
    | [] => st
    | q :: qs =>
      let minPrice := qs.foldl min q
      let maxPrice := qs.foldl max q
      let minPRaw : ℚ := ((⌊minPrice / 10000⌋ * 10000 : ℤ) : ℚ)
      let maxPRaw : ℚ := ((⌈maxPrice / 10000⌉ * 10000 : ℤ) : ℚ)
      let maxP := min maxPRaw PRICE_FILTER_CAP
      let minP := min minPRaw maxP
      { minPriceAvailable := minP, maxPriceAvailable := maxP,
        priceRange := (minP, maxP) }

/-- Derived year bound state. -/
structure YearBounds where
  minYearAvailable : ℤ
  maxYearAvailable : ℤ
  yearRange : ℤ × ℤ
deriving DecidableEq

/-- Initial year bound state (source useState initialisers, lines 193-195). -/
def initialYearBounds : YearBounds :=
  { minYearAvailable := 1900, maxYearAvailable := 2030, yearRange := (1900, 2030) }

/-- One run of the year bounds effect (source lines 776-789): exact minimum
and maximum of the present, positive construction years; available bounds
and selected range reset to them; no positive year leaves the state alone. -/
def updateYearBounds (properties : List PropertyRecord) (st : YearBounds) :
    YearBounds :=
  match properties with
  | [] => st
  | _ :: _ =>
    let years := (properties.filterMap (fun p => p.year_built)).filter fun y =>
      decide (y > 0)
    match years with
    | [] => st
    | y :: ys =>
      let minY := ys.foldl min y
      let maxY := ys.foldl max y
      { minYearAvailable := minY, maxYearAvailable := maxY,
        yearRange := (minY, maxY) }

/-- Derived timeline bound state. -/
structure DateBounds where
  minDateAvailable : ℤ
  maxDateAvailable : ℤ
  dateRange : ℤ × ℤ
deriving DecidableEq

/-- Initial timeline bound state (source useState initialisers, lines
198-203), as a function of the current clock reading. -/
def initialDateBounds (now : ℤ) : DateBounds :=
  let today := toDayStart now
  { minDateAvailable := toDayStart (now - 180 * DAY_MS),
    maxDateAvailable := today,
    dateRange := (today - 180 * DAY_MS, today) }

/-- The per-listing date collection of the timeline bounds effect (the
flatMap callback of the source): the history day-timestamps, with the
day-truncated creation timestamp standing in when there are none. -/
def propertyTimelineDates (property : PropertyRecord) : List ℤ :=
  let historyDates := getPropertyHistoryDates property
  if historyDates = [] then
    match property.created_at with
    | some t => [toDayStart t]
    | none => []
  else historyDates

/-- One run of the timeline bounds effect (source lines 792-812): collect
every history day-timestamp, falling back to the day-truncated creation
timestamp for listings without history; reset available bounds and the
selected range to the global minimum and maximum day; no dates at all
leaves the state alone. -/
def updateDateBounds (properties : List PropertyRecord) (st : DateBounds) :
    DateBounds :=
  match properties with
  | [] => st
  | _ :: _ =>
    match (properties.map propertyTimelineDates).flatten with
    | [] => st
    | d :: ds =>
      let minD := ds.foldl min d
      let maxD := ds.foldl max d
      { minDateAvailable := minD, maxDateAvailable := maxD,
        dateRange := (minD, maxD) }

/-- Assemble a FilterState from bounds states, category switches and
polygon state, selecting each facet range the way the sync effect reads it. -/
def mkFilterState (vc : VisibleCategories) (sb : SizeBounds) (pb : PriceBounds)
    (yb : YearBounds) (db : DateBounds) (closed : Bool)
    (points : List (ℚ × ℚ)) : FilterState :=
  { visibleCategories := vc
    sizeRange := sb.sizeRange
    priceRange := pb.priceRange
    yearRange := yb.yearRange
    dateRange := db.dateRange
    maxDateAvailable := db.maxDateAvailable
    isPolygonClosed := closed
    polygonPoints := points }

/-- Toggle a listing id in the compare list (source toggleCompareById,
lines 274-280): remove when present; when absent, append only while the
list is below MAX_COMPARE_ITEMS, otherwise leave it unchanged. -/
def toggleCompareById (propertyId : String) (prev : List String) :
    List String :=
  if propertyId ∈ prev then prev.filter fun id => id != propertyId
  else if MAX_COMPARE_ITEMS ≤ prev.length then prev
  else prev ++ [propertyId]

/-- The polygon interaction flags and point list (source state, lines
206-209). -/
structure PolygonState where
  isDrawingPolygon : Bool
  polygonPoints : List (ℚ × ℚ)
  isPolygonClosed : Bool
  isDraggingVertex : Bool
deriving DecidableEq

/-- Initial polygon state: not drawing, no points, not closed, not
dragging. -/
def initialPolygonState : PolygonState :=
  { isDrawingPolygon := false, polygonPoints := [],
    isPolygonClosed := false, isDraggingVertex := false }

/-- Start drawing (source startPolygonDrawing, lines 951-959): cancel any
drag, empty the point list, reopen the polygon and raise the drawing flag. -/
def startPolygonDrawing (s : PolygonState) : PolygonState :=
  { s with
    isDraggingVertex := false
    polygonPoints := []
    isPolygonClosed := false
    isDrawingPolygon := true }

/-- Complete drawing (source completePolygonDrawing, lines 961-965): with
fewer than three points do nothing; otherwise close the polygon and drop
the drawing flag. -/
def completePolygonDrawing (s : PolygonState) : PolygonState :=
  if s.polygonPoints.length < 3 then s
  else { s with isPolygonClosed := true, isDrawingPolygon := false }

/-- Clear the polygon (source clearPolygon, lines 967-975): cancel any
drag, empty the point list, and drop both the closed and drawing flags. -/
def clearPolygon (s : PolygonState) : PolygonState :=
  { s with
    isDraggingVertex := false
    polygonPoints := []
    isPolygonClosed := false
    isDrawingPolygon := false }

/-- The three button-driven polygon actions. -/
inductive PolygonAction where
  | startDrawing
  | complete
  | clear
deriving DecidableEq

/-- Dispatch one polygon action. -/
def polygonStep (s : PolygonState) : PolygonAction → PolygonState
  | PolygonAction.startDrawing => startPolygonDrawing s
  | PolygonAction.complete => completePolygonDrawing s
  | PolygonAction.clear => clearPolygon s

/-- The drawing and closed flags are never simultaneously raised. -/
def PolygonFlagsConsistent (s : PolygonState) : Prop :=
  ¬(s.isDrawingPolygon = true ∧ s.isPolygonClosed = true)

/-- The square polygon of the regression scenario in the spec. -/
def squarePolygon : List (ℚ × ℚ) := [(0, 0), (0, 10), (10, 10), (10, 0)]

/-- The timeline inclusion condition as the spec words it: the day-truncated
history timestamps of the listing, with the single current upper timeline
bound substituted when there are none, must contain a date between the
selected start day and the current upper bound, both day-truncated and both
inclusive. -/
def timelineSpecIncluded (selectedStart upperBound : ℤ)
    (property : PropertyRecord) : Prop :=
  let dates := getPropertyHistoryDates property
  let datesToCheck := if dates = [] then [toDayStart upperBound] else dates
  ∃ date ∈ datesToCheck,
    toDayStart selectedStart ≤ date ∧ date ≤ toDayStart upperBound

/-- C7: for the square polygon with vertices (0,0),(0,10),(10,10),(10,0) the
ray-casting test accepts the point (5,5) and rejects the point (15,15), and
on any fixed point and polygon the test is a function of its input alone, so
its result is deterministic. -/
theorem isPointInPolygon_square_scenario :
    isPointInPolygon (5, 5) squarePolygon = true ∧
    isPointInPolygon (15, 15) squarePolygon = false ∧
    ∀ (point : ℚ × ℚ) (polygon : List (ℚ × ℚ)),
      isPointInPolygon point polygon = isPointInPolygon point polygon := by
  refine ⟨?_, ?_, fun point polygon => rfl⟩
  · simp only [isPointInPolygon, squarePolygon, List.length_cons, List.length_nil]
    norm_num [List.range_succ, List.getD, List.get?]
  · simp only [isPointInPolygon, squarePolygon, List.length_cons, List.length_nil]
    norm_num [List.range_succ, List.getD, List.get?]

/-- C2: the timeline filter of the sync effect includes a listing exactly
when the spec-worded condition holds — some day-truncated history timestamp
(or, with no history, the substituted upper bound) lies between the selected
start day and the day-truncated derived maximum date, inclusive — and its
verdict never depends on the second, user-facing component of the selected
date range: the upper bound in force is the global maximum date. -/
theorem timelinePass_iff_spec :
    ∀ (property : PropertyRecord) (dateRange : ℤ × ℤ) (maxDateAvailable : ℤ),
      (timelinePass dateRange maxDateAvailable property = true ↔
        timelineSpecIncluded dateRange.1 maxDateAvailable property) ∧
      ∀ d2 : ℤ,
        timelinePass (dateRange.1, d2) maxDateAvailable property =
          timelinePass dateRange maxDateAvailable property := by
  intro property dateRange maxDateAvailable
  constructor
  · simp [timelinePass, timelineSpecIncluded, List.any_eq_true]
  · intro d2
    rfl

lemma toggleCompareById_length_le (propertyId : String) (l : List String)
    (h : l.length ≤ MAX_COMPARE_ITEMS) :
    (toggleCompareById propertyId l).length ≤ MAX_COMPARE_ITEMS := by
  unfold toggleCompareById
  split_ifs with h1 h2
  · exact le_trans (List.length_filter_le _ _) h
  · exact h
  · unfold MAX_COMPARE_ITEMS at h2 ⊢
    simp only [List.length_append, List.length_singleton]
    omega

/-- C6: toggling a listing id on the compare list removes it when present,
appends it when absent and the list is below capacity, and leaves the list
unchanged (a no-op, not an error) when appending would exceed the capacity
of four; consequently a compare list that starts within capacity stays
within capacity under every sequence of toggles. -/
theorem toggleCompareById_spec :
    (∀ (propertyId : String) (l : List String),
      toggleCompareById propertyId l =
        if propertyId ∈ l then l.filter fun id => id != propertyId
        else if MAX_COMPARE_ITEMS ≤ l.length then l
        else l ++ [propertyId]) ∧
    (∀ (ops : List String) (l : List String), l.length ≤ MAX_COMPARE_ITEMS →
      (ops.foldl (fun acc propertyId => toggleCompareById propertyId acc)
        l).length ≤ MAX_COMPARE_ITEMS) := by
  refine ⟨fun propertyId l => rfl, fun ops => ?_⟩
  induction ops with
  | nil => intro l h; exact h
  | cons a as ih =>
    intro l h
    exact ih _ (toggleCompareById_length_le a l h)

/-- Witness for C6 at a concrete toggle sequence from the empty list. -/
theorem toggleCompareById_spec_witness :
    (([] : List String).length ≤ MAX_COMPARE_ITEMS) ∧
    ((["a", "b", "a", "c", "d", "e", "f"].foldl
        (fun acc propertyId => toggleCompareById propertyId acc)
        ([] : List String)).length ≤ MAX_COMPARE_ITEMS) :=
  ⟨by decide,
    toggleCompareById_spec.2 ["a", "b", "a", "c", "d", "e", "f"] [] (by decide)⟩

/-- C8: the polygon complete action closes the polygon and drops the drawing
flag exactly when the point list has at least three points; with fewer
points it is a no-op that changes nothing, so the drawing flag, the closed
flag and the point list are all left as they were. -/
theorem completePolygonDrawing_spec :
    ∀ s : PolygonState,
      (s.polygonPoints.length < 3 → completePolygonDrawing s = s) ∧
      (3 ≤ s.polygonPoints.length →
        completePolygonDrawing s =
          { s with isPolygonClosed := true, isDrawingPolygon := false }) := by
  intro s
  constructor
  · intro h
    simp [completePolygonDrawing, h]
  · intro h
    rw [completePolygonDrawing, if_neg (by omega)]

/-- Witness for C8: a two-point state is unchanged and a three-point state
is closed. -/
theorem completePolygonDrawing_spec_witness :
    completePolygonDrawing
        { isDrawingPolygon := true, polygonPoints := [(0, 0), (0, 1)],
          isPolygonClosed := false, isDraggingVertex := false } =
      { isDrawingPolygon := true, polygonPoints := [(0, 0), (0, 1)],
        isPolygonClosed := false, isDraggingVertex := false } ∧
    completePolygonDrawing
        { isDrawingPolygon := true, polygonPoints := [(0, 0), (0, 1), (1, 1)],
          isPolygonClosed := false, isDraggingVertex := false } =
      { isDrawingPolygon := false, polygonPoints := [(0, 0), (0, 1), (1, 1)],
        isPolygonClosed := true, isDraggingVertex := false } :=
  ⟨(completePolygonDrawing_spec _).1 (by decide),
    (completePolygonDrawing_spec
      { isDrawingPolygon := true, polygonPoints := [(0, 0), (0, 1), (1, 1)],
        isPolygonClosed := false, isDraggingVertex := false }).2 (by decide)⟩

lemma polygonStep_preserves_flags (s : PolygonState) (a : PolygonAction)
    (h : PolygonFlagsConsistent s) :
    PolygonFlagsConsistent (polygonStep s a) := by
  cases a with
  | startDrawing =>
    simp [polygonStep, startPolygonDrawing, PolygonFlagsConsistent]
  | complete =>
    unfold polygonStep completePolygonDrawing
    split_ifs with hlen
    · exact h
    · simp [PolygonFlagsConsistent]
  | clear =>
    simp [polygonStep, clearPolygon, PolygonFlagsConsistent]

/-- C9: starting from the initial polygon state the drawing and closed flags
are never both raised: the initial state is consistent, every sequence of
start-drawing, complete and clear actions preserves consistency, and the
individual actions behave as described — start-drawing raises drawing and
drops closed, complete (once three points exist) raises closed and drops
drawing, and clear drops both. -/
theorem polygonStep_flags_invariant :
    PolygonFlagsConsistent initialPolygonState ∧
    (∀ (acts : List PolygonAction) (s : PolygonState), PolygonFlagsConsistent s →
      PolygonFlagsConsistent (acts.foldl polygonStep s)) ∧
    (∀ s : PolygonState,
      (polygonStep s PolygonAction.startDrawing).isDrawingPolygon = true ∧
      (polygonStep s PolygonAction.startDrawing).isPolygonClosed = false) ∧
    (∀ s : PolygonState, 3 ≤ s.polygonPoints.length →
      (polygonStep s PolygonAction.complete).isPolygonClosed = true ∧
      (polygonStep s PolygonAction.complete).isDrawingPolygon = false) ∧
    (∀ s : PolygonState,
      (polygonStep s PolygonAction.clear).isDrawingPolygon = false ∧
      (polygonStep s PolygonAction.clear).isPolygonClosed = false) := by
  refine ⟨by simp [PolygonFlagsConsistent, initialPolygonState], ?_, ?_, ?_, ?_⟩
  · intro acts
    induction acts with
    | nil => intro s h; exact h
    | cons a as ih =>
      intro s h
      exact ih _ (polygonStep_preserves_flags s a h)
  · intro s
    exact ⟨rfl, rfl⟩
  · intro s h
    rw [polygonStep, completePolygonDrawing, if_neg (by omega)]
    exact ⟨rfl, rfl⟩
  · intro s
    exact ⟨rfl, rfl⟩

/-- Witness for C9 at a concrete action sequence and a concrete
three-point state. -/
theorem polygonStep_flags_invariant_witness :
    PolygonFlagsConsistent
      ([PolygonAction.startDrawing, PolygonAction.complete,
        PolygonAction.clear].foldl polygonStep initialPolygonState) ∧
    (polygonStep
        { isDrawingPolygon := true, polygonPoints := [(0, 0), (0, 1), (1, 1)],
          isPolygonClosed := false, isDraggingVertex := false }
        PolygonAction.complete).isPolygonClosed = true :=
  ⟨polygonStep_flags_invariant.2.1
      [PolygonAction.startDrawing, PolygonAction.complete, PolygonAction.clear]
      initialPolygonState (by simp [PolygonFlagsConsistent, initialPolygonState]),
    (polygonStep_flags_invariant.2.2.2.1
      { isDrawingPolygon := true, polygonPoints := [(0, 0), (0, 1), (1, 1)],
        isPolygonClosed := false, isDraggingVertex := false } (by decide)).1⟩

lemma pricePass_mono {r r' : ℚ × ℚ} (h1 : r'.1 ≤ r.1) (h2 : r.2 ≤ r'.2)
    (price : ℚ) (h : pricePass r price = true) : pricePass r' price = true := by
  unfold pricePass at h ⊢
  by_cases hp : price > 0
  · rw [if_pos hp] at h ⊢
    by_cases hc : price < r.1 ∨ price > r.2
    · rw [if_pos hc] at h
      exact absurd h (by simp)
    · push_neg at hc
      rw [if_neg (by push_neg; exact ⟨le_trans h1 hc.1, le_trans hc.2 h2⟩)]
  · rw [if_neg hp]

lemma sizePass_mono {r r' : ℚ × ℚ} (h1 : r'.1 ≤ r.1) (h2 : r.2 ≤ r'.2)
    (size : ℚ) (h : sizePass r size = true) : sizePass r' size = true := by
  unfold sizePass at h ⊢
  by_cases hp : size > 0
  · rw [if_pos hp] at h ⊢
    by_cases hc : size < r.1 ∨ size > r.2
    · rw [if_pos hc] at h
      exact absurd h (by simp)
    · push_neg at hc
      rw [if_neg (by push_neg; exact ⟨le_trans h1 hc.1, le_trans hc.2 h2⟩)]
  · rw [if_neg hp]

lemma yearPass_mono {r r' : ℤ × ℤ} (h1 : r'.1 ≤ r.1) (h2 : r.2 ≤ r'.2)
    (year_built : Option ℤ) (h : yearPass r year_built = true) :
    yearPass r' year_built = true := by
  cases year_built with
  | none => rfl
  | some y =>
    simp only [yearPass] at h ⊢
    by_cases hy : y > 0
    · rw [if_pos hy] at h ⊢
      by_cases hc : y < r.1 ∨ y > r.2
      · rw [if_pos hc] at h
        exact absurd h (by simp)
      · push_neg at hc
        rw [if_neg (by push_neg; exact ⟨le_trans h1 hc.1, le_trans hc.2 h2⟩)]
    · rw [if_neg hy]

lemma categoryPass_mono {vc vc' : VisibleCategories}
    (hch : vc.cheap = true → vc'.cheap = true)
    (hme : vc.medium = true → vc'.medium = true)
    (hex : vc.expensive = true → vc'.expensive = true)
    (hun : vc.unknown = true → vc'.unknown = true)
    (size pricePerM2 : ℚ) (h : categoryPass vc size pricePerM2 = true) :
    categoryPass vc' size pricePerM2 = true := by
  unfold categoryPass at h ⊢
  split_ifs at h ⊢ <;>
    first
      | exact hun h
      | exact hch h
      | exact hme h
      | exact hex h

lemma toDayStart_mono {s t : ℤ} (h : s ≤ t) : toDayStart s ≤ toDayStart t := by
  unfold toDayStart
  have hpos : (0 : ℤ) < DAY_MS := by norm_num [DAY_MS]
  exact mul_le_mul_of_nonneg_right (Int.ediv_le_ediv hpos h) (le_of_lt hpos)

lemma timelinePass_mono {d d' : ℤ × ℤ} {maxDateAvailable : ℤ}
    (h : d'.1 ≤ d.1) (property : PropertyRecord)
    (hp : timelinePass d maxDateAvailable property = true) :
    timelinePass d' maxDateAvailable property = true := by
  simp only [timelinePass, List.any_eq_true, decide_eq_true_eq] at hp ⊢
  obtain ⟨date, hmem, hlo, hhi⟩ := hp
  exact ⟨date, hmem, le_trans (toDayStart_mono h) hlo, hhi⟩

lemma polygonPass_not_closed (polygonPoints : List (ℚ × ℚ))
    (coordinates : ℚ × ℚ) : polygonPass false polygonPoints coordinates = true := by
  simp [polygonPass]

/-- Widening that lowers the selected price minimum or raises the selected
price maximum while every other facet is unchanged. -/
def WidensPrice (s t : FilterState) : Prop :=
  t.priceRange.1 ≤ s.priceRange.1 ∧ s.priceRange.2 ≤ t.priceRange.2 ∧
  t.visibleCategories = s.visibleCategories ∧ t.sizeRange = s.sizeRange ∧
  t.yearRange = s.yearRange ∧ t.dateRange = s.dateRange ∧
  t.maxDateAvailable = s.maxDateAvailable ∧
  t.isPolygonClosed = s.isPolygonClosed ∧ t.polygonPoints = s.polygonPoints

/-- Widening of the selected size range, other facets unchanged. -/
def WidensSize (s t : FilterState) : Prop :=
  t.sizeRange.1 ≤ s.sizeRange.1 ∧ s.sizeRange.2 ≤ t.sizeRange.2 ∧
  t.visibleCategories = s.visibleCategories ∧ t.priceRange = s.priceRange ∧
  t.yearRange = s.yearRange ∧ t.dateRange = s.dateRange ∧
  t.maxDateAvailable = s.maxDateAvailable ∧
  t.isPolygonClosed = s.isPolygonClosed ∧ t.polygonPoints = s.polygonPoints

/-- Widening of the selected construction-year range, other facets
unchanged. -/
def WidensYear (s t : FilterState) : Prop :=
  t.yearRange.1 ≤ s.yearRange.1 ∧ s.yearRange.2 ≤ t.yearRange.2 ∧
  t.visibleCategories = s.visibleCategories ∧ t.sizeRange = s.sizeRange ∧
  t.priceRange = s.priceRange ∧ t.dateRange = s.dateRange ∧
  t.maxDateAvailable = s.maxDateAvailable ∧
  t.isPolygonClosed = s.isPolygonClosed ∧ t.polygonPoints = s.polygonPoints

/-- Widening that lowers the selected timeline start, other facets
unchanged (the upper timeline bound in force is the derived maximum date,
which stays fixed). -/
def WidensTimelineStart (s t : FilterState) : Prop :=
  t.dateRange.1 ≤ s.dateRange.1 ∧
  t.visibleCategories = s.visibleCategories ∧ t.sizeRange = s.sizeRange ∧
  t.priceRange = s.priceRange ∧ t.yearRange = s.yearRange ∧
  t.maxDateAvailable = s.maxDateAvailable ∧
  t.isPolygonClosed = s.isPolygonClosed ∧ t.polygonPoints = s.polygonPoints

/-- Widening that keeps every visible category visible, possibly making
more visible, other facets unchanged. -/
def WidensCategories (s t : FilterState) : Prop :=
  (s.visibleCategories.cheap = true → t.visibleCategories.cheap = true) ∧
  (s.visibleCategories.medium = true → t.visibleCategories.medium = true) ∧
  (s.visibleCategories.expensive = true → t.visibleCategories.expensive = true) ∧
  (s.visibleCategories.unknown = true → t.visibleCategories.unknown = true) ∧
  t.sizeRange = s.sizeRange ∧ t.priceRange = s.priceRange ∧
  t.yearRange = s.yearRange ∧ t.dateRange = s.dateRange ∧
  t.maxDateAvailable = s.maxDateAvailable ∧
  t.isPolygonClosed = s.isPolygonClosed ∧ t.polygonPoints = s.polygonPoints

/-- Widening that removes the polygon (as the clear action does), other
facets unchanged. -/
def RemovesPolygon (s t : FilterState) : Prop :=
  t.isPolygonClosed = false ∧ t.polygonPoints = [] ∧
  t.visibleCategories = s.visibleCategories ∧ t.sizeRange = s.sizeRange ∧
  t.priceRange = s.priceRange ∧ t.yearRange = s.yearRange ∧
  t.dateRange = s.dateRange ∧ t.maxDateAvailable = s.maxDateAvailable

/-- Widening of exactly one facet, the other facets held fixed. -/
def FacetWiden (s t : FilterState) : Prop :=
  WidensPrice s t ∨ WidensSize s t ∨ WidensYear s t ∨
  WidensTimelineStart s t ∨ WidensCategories s t ∨ RemovesPolygon s t

lemma propertyFilter_mono {s t : FilterState} (h : FacetWiden s t)
    (property : PropertyRecord) (coordinates : ℚ × ℚ)
    (hp : propertyFilter s property coordinates = true) :
    propertyFilter t property coordinates = true := by
  simp only [propertyFilter, Bool.and_eq_true] at hp ⊢
  obtain ⟨⟨⟨⟨⟨h0, h1⟩, h2⟩, h3⟩, h4⟩, h5⟩ := hp
  rcases h with hw | hw | hw | hw | hw | hw
  · obtain ⟨w1, w2, ec, es, ey, ed, em, ecl, ept⟩ := hw
    rw [ec, es, ey, ed, em, ecl, ept]
    exact ⟨⟨⟨⟨⟨pricePass_mono w1 w2 _ h0, h1⟩, h2⟩, h3⟩, h4⟩, h5⟩
  · obtain ⟨w1, w2, ec, epr, ey, ed, em, ecl, ept⟩ := hw
    rw [ec, epr, ey, ed, em, ecl, ept]
    exact ⟨⟨⟨⟨⟨h0, sizePass_mono w1 w2 _ h1⟩, h2⟩, h3⟩, h4⟩, h5⟩
  · obtain ⟨w1, w2, ec, es, epr, ed, em, ecl, ept⟩ := hw
    rw [ec, es, epr, ed, em, ecl, ept]
    exact ⟨⟨⟨⟨⟨h0, h1⟩, h2⟩, yearPass_mono w1 w2 _ h3⟩, h4⟩, h5⟩
  · obtain ⟨w1, ec, es, epr, ey, em, ecl, ept⟩ := hw
    rw [ec, es, epr, ey, em, ecl, ept]
    exact ⟨⟨⟨⟨⟨h0, h1⟩, h2⟩, h3⟩, timelinePass_mono w1 property h4⟩, h5⟩
  · obtain ⟨wch, wme, wex, wun, es, epr, ey, ed, em, ecl, ept⟩ := hw
    rw [es, epr, ey, ed, em, ecl, ept]
    exact ⟨⟨⟨⟨⟨h0, h1⟩, categoryPass_mono wch wme wex wun _ _ h2⟩, h3⟩, h4⟩, h5⟩
  · obtain ⟨wcl, wpt, ec, es, epr, ey, ed, em⟩ := hw
    rw [ec, es, epr, ey, ed, em, wcl, wpt]
    exact ⟨⟨⟨⟨⟨h0, h1⟩, h2⟩, h3⟩, h4⟩, polygonPass_not_closed _ _⟩

/-- C1: holding every other facet fixed, widening exactly one facet of the
filter — lowering a selected range minimum or raising a selected range
maximum for price, size or year, lowering the timeline start, keeping every
visible category visible, or removing the polygon — can only grow the
filtered listing set: every listing included before is still included. -/
theorem filterFeatures_monotone_per_facet (s t : FilterState)
    (h : FacetWiden s t) (properties : List PropertyRecord) :
    ∀ x ∈ filterFeatures s properties, x ∈ filterFeatures t properties := by
  intro x hx
  rw [filterFeatures, List.mem_filter] at hx ⊢
  exact ⟨hx.1, propertyFilter_mono h x.1 x.2 hx.2⟩

/-- Filter state used by the C1 witness: a mid-width price range, every
other facet fully open. -/
def monoWitnessStateS : FilterState :=
  { visibleCategories :=
      { cheap := true, medium := true, expensive := true, unknown := true }
    sizeRange := (0, 500)
    priceRange := (100, 1000000)
    yearRange := (1900, 2030)
    dateRange := (0, 0)
    maxDateAvailable := 0
    isPolygonClosed := false
    polygonPoints := [] }

/-- Filter state used by the C1 witness: the price range widened on both
sides. -/
def monoWitnessStateT : FilterState :=
  { monoWitnessStateS with priceRange := (0, 2000000) }

/-- Listing used by the C1 witness. -/
def monoWitnessListing : PropertyRecord :=
  { id := "w", price := 200000, size_m2 := 0, year_built := none,
    location := some (1, 2), price_history := [], created_at := none }

/-- Witness for C1: widening the price range at a concrete state keeps a
concrete listing in the filtered set. -/
theorem filterFeatures_monotone_per_facet_witness :
    FacetWiden monoWitnessStateS monoWitnessStateT ∧
    ∀ x ∈ filterFeatures monoWitnessStateS [monoWitnessListing],
      x ∈ filterFeatures monoWitnessStateT [monoWitnessListing] :=
  ⟨Or.inl ⟨by decide, by decide, rfl, rfl, rfl, rfl, rfl, rfl, rfl⟩,
    filterFeatures_monotone_per_facet monoWitnessStateS monoWitnessStateT
      (Or.inl ⟨by decide, by decide, rfl, rfl, rfl, rfl, rfl, rfl, rfl⟩)
      [monoWitnessListing]⟩

/-- Listing used by the C3 counterexample and by several witnesses: a
single listing priced above the cap. -/
def capListing : PropertyRecord :=
  { id := "cx", price := 2000000, size_m2 := 0, year_built := none,
    location := some (0, 0), price_history := [], created_at := none }

/-- Counterexample to C3 as stated: for a lone listing priced 2000000 the
minimum observed positive price floored to the nearest 10000 is 2000000,
yet the effect stores 1000000 as the available minimum, because the code
additionally clamps the floored minimum to the capped maximum. -/
theorem updatePriceBounds_min_clamped_cx :
    (positivePrices [capListing]).min? = some 2000000 ∧
    ((⌊(2000000 : ℚ) / 10000⌋ * 10000 : ℤ) : ℚ) = 2000000 ∧
    (updatePriceBounds [capListing] initialPriceBounds).minPriceAvailable =
      1000000 ∧
    ((1000000 : ℚ) ≠ 2000000) := by
  refine ⟨by decide, ?_, ?_, by norm_num⟩
  · have hfl : (⌊(2000000 : ℚ) / 10000⌋ : ℤ) = 200 := by norm_num
    rw [hfl]
    norm_num
  · have hpp : positivePrices [capListing] = [2000000] := by decide
    have hfl : (⌊(2000000 : ℚ) / 10000⌋ : ℤ) = 200 := by norm_num
    have hcl : (⌈(2000000 : ℚ) / 10000⌉ : ℤ) = 200 := by
      norm_num [Int.ceil_eq_iff]
    simp only [updatePriceBounds]
    rw [hpp]
    simp only [List.foldl_nil]
    rw [hfl, hcl]
    norm_num [PRICE_FILTER_CAP, min_def]

/-- C3, amended: whenever the listing array holds at least one positive
price, the price bounds effect sets the available maximum to the maximum
observed positive price ceiled to the nearest 10000 and capped at
1000000, sets the available minimum to the minimum observed positive price
floored to the nearest 10000 and additionally clamped to the capped
maximum, and resets the selected range to the new pair. -/
theorem updatePriceBounds_spec :
    ∀ (properties : List PropertyRecord) (st : PriceBounds) (mn mx : ℚ),
      (positivePrices properties).min? = some mn →
      (positivePrices properties).max? = some mx →
      updatePriceBounds properties st =
        { minPriceAvailable :=
            min ((⌊mn / 10000⌋ * 10000 : ℤ) : ℚ)
              (min ((⌈mx / 10000⌉ * 10000 : ℤ) : ℚ) PRICE_FILTER_CAP)
          maxPriceAvailable :=
            min ((⌈mx / 10000⌉ * 10000 : ℤ) : ℚ) PRICE_FILTER_CAP
          priceRange :=
            (min ((⌊mn / 10000⌋ * 10000 : ℤ) : ℚ)
              (min ((⌈mx / 10000⌉ * 10000 : ℤ) : ℚ) PRICE_FILTER_CAP),
             min ((⌈mx / 10000⌉ * 10000 : ℤ) : ℚ) PRICE_FILTER_CAP) } := by
  intro properties st mn mx h1 h2
  cases properties with
  | nil => simp [positivePrices, List.min?] at h1
  | cons p ps =>
    simp only [updatePriceBounds]
    cases hpp : positivePrices (p :: ps) with
    | nil =>
      rw [hpp] at h1
      simp [List.min?] at h1
    | cons q qs =>
      rw [hpp] at h1 h2
      simp only [List.min?] at h1
      simp only [List.max?] at h2
      injection h1 with h1
      injection h2 with h2
      subst h1
      subst h2
      rfl

/-- Witness for C3 (amended) at the single over-cap listing. -/
theorem updatePriceBounds_spec_witness :
    (positivePrices [capListing]).min? = some 2000000 ∧
    (positivePrices [capListing]).max? = some 2000000 ∧
    updatePriceBounds [capListing] initialPriceBounds =
      { minPriceAvailable :=
          min ((⌊(2000000 : ℚ) / 10000⌋ * 10000 : ℤ) : ℚ)
            (min ((⌈(2000000 : ℚ) / 10000⌉ * 10000 : ℤ) : ℚ) PRICE_FILTER_CAP)
        maxPriceAvailable :=
          min ((⌈(2000000 : ℚ) / 10000⌉ * 10000 : ℤ) : ℚ) PRICE_FILTER_CAP
        priceRange :=
          (min ((⌊(2000000 : ℚ) / 10000⌋ * 10000 : ℤ) : ℚ)
            (min ((⌈(2000000 : ℚ) / 10000⌉ * 10000 : ℤ) : ℚ) PRICE_FILTER_CAP),
           min ((⌈(2000000 : ℚ) / 10000⌉ * 10000 : ℤ) : ℚ)
             PRICE_FILTER_CAP) } :=
  ⟨by decide, by decide,
    updatePriceBounds_spec [capListing] initialPriceBounds 2000000 2000000
      (by decide) (by decide)⟩

lemma updateSizeBounds_maxSize_le (properties : List PropertyRecord)
    (st : SizeBounds) :
    st.maxSizeAvailable ≤ (updateSizeBounds properties st).maxSizeAvailable := by
  cases properties with
  | nil => exact le_refl _
  | cons p ps =>
    simp only [updateSizeBounds]
    split_ifs with h
    · exact le_of_lt h
    · exact le_refl _

/-- C4: the candidate size bound is the maximum observed listing size
rounded up to the nearest 10; the effect widens the available bound and
resets the selected range to the new full span exactly when the candidate
exceeds the stored maximum, and leaves the state untouched otherwise, so
over any sequence of recomputes the stored available size bound never
shrinks. -/
theorem updateSizeBounds_spec :
    (∀ (properties : List PropertyRecord) (st : SizeBounds) (mx : ℚ),
      (properties.map fun p => p.size_m2).max? = some mx →
      updateSizeBounds properties st =
        if st.maxSizeAvailable < ((⌈mx / 10⌉ * 10 : ℤ) : ℚ) then
          { maxSizeAvailable := ((⌈mx / 10⌉ * 10 : ℤ) : ℚ)
            sizeRange := (0, ((⌈mx / 10⌉ * 10 : ℤ) : ℚ)) }
        else st) ∧
    (∀ (arrs : List (List PropertyRecord)) (st : SizeBounds),
      st.maxSizeAvailable ≤
        (arrs.foldl (fun acc properties => updateSizeBounds properties acc)
          st).maxSizeAvailable) := by
  constructor
  · intro properties st mx h
    cases properties with
    | nil => simp [List.max?] at h
    | cons p ps =>
      simp only [List.map_cons, List.max?] at h
      injection h with h
      subst h
      rfl
  · intro arrs
    induction arrs with
    | nil => intro st; exact le_refl _
    | cons l ls ih =>
      intro st
      exact le_trans (updateSizeBounds_maxSize_le l st) (ih _)

/-- Listing used by the C4 witness. -/
def sizeWitnessListing : PropertyRecord :=
  { id := "s", price := 100000, size_m2 := 55, year_built := none,
    location := some (0, 0), price_history := [], created_at := none }

/-- Witness for C4 at a single listing of size 55 and the initial bounds. -/
theorem updateSizeBounds_spec_witness :
    ([sizeWitnessListing].map fun p => p.size_m2).max? = some 55 ∧
    updateSizeBounds [sizeWitnessListing] initialSizeBounds =
      (if initialSizeBounds.maxSizeAvailable <
          ((⌈(55 : ℚ) / 10⌉ * 10 : ℤ) : ℚ) then
        { maxSizeAvailable := ((⌈(55 : ℚ) / 10⌉ * 10 : ℤ) : ℚ)
          sizeRange := (0, ((⌈(55 : ℚ) / 10⌉ * 10 : ℤ) : ℚ)) }
      else initialSizeBounds) ∧
    ([[sizeWitnessListing]].foldl
        (fun acc properties => updateSizeBounds properties acc)
        initialSizeBounds).maxSizeAvailable ≥
      initialSizeBounds.maxSizeAvailable :=
  ⟨by decide,
    updateSizeBounds_spec.1 [sizeWitnessListing] initialSizeBounds 55
      (by decide),
    updateSizeBounds_spec.2 [[sizeWitnessListing]] initialSizeBounds⟩

lemma positivePrices_ne_nil {properties : List PropertyRecord}
    (h : ∃ p ∈ properties, 0 < p.price) : positivePrices properties ≠ [] := by
  obtain ⟨p, hmem, hpos⟩ := h
  intro hnil
  have hin : p.price ∈ positivePrices properties := by
    unfold positivePrices
    rw [List.mem_filter]
    exact ⟨List.mem_map_of_mem _ hmem, by simpa using hpos⟩
  rw [hnil] at hin
  exact absurd hin (List.not_mem_nil _)

lemma updatePriceBounds_max_le_cap (properties : List PropertyRecord)
    (pb : PriceBounds) (h : ∃ p ∈ properties, 0 < p.price) :
    (updatePriceBounds properties pb).priceRange.2 ≤ PRICE_FILTER_CAP := by
  cases properties with
  | nil =>
    obtain ⟨p, hmem, _⟩ := h
    exact absurd hmem (List.not_mem_nil _)
  | cons a as =>
    simp only [updatePriceBounds]
    cases hpp : positivePrices (a :: as) with
    | nil => exact absurd hpp (positivePrices_ne_nil h)
    | cons q qs => exact min_le_right _ _

/-- C10: after the price bounds effect runs on a listing array holding at
least one positive price, the freshly reset selected price range has its
maximum capped at 1000000, so under that range the filter rejects every
listing priced above the cap, whatever the other facets are. -/
theorem propertyFilter_rejects_over_cap (properties : List PropertyRecord)
    (pb : PriceBounds) (vc : VisibleCategories) (sb : SizeBounds)
    (yb : YearBounds) (db : DateBounds) (closed : Bool)
    (points : List (ℚ × ℚ)) (property : PropertyRecord) (coordinates : ℚ × ℚ)
    (hpos : ∃ p ∈ properties, 0 < p.price)
    (hover : PRICE_FILTER_CAP < property.price) :
    propertyFilter
      (mkFilterState vc sb (updatePriceBounds properties pb) yb db closed
        points) property coordinates = false := by
  have hcap := updatePriceBounds_max_le_cap properties pb hpos
  have hpos2 : property.price > 0 :=
    lt_trans (by norm_num [PRICE_FILTER_CAP]) hover
  have hfail :
      pricePass (updatePriceBounds properties pb).priceRange property.price =
        false := by
    unfold pricePass
    rw [if_pos hpos2, if_pos (Or.inr (lt_of_le_of_lt hcap hover))]
  simp only [propertyFilter, mkFilterState]
  rw [hfail]
  simp

/-- Witness for C10 at the over-cap listing and concrete bounds states. -/
theorem propertyFilter_rejects_over_cap_witness :
    (∃ p ∈ [capListing], 0 < p.price) ∧
    PRICE_FILTER_CAP < capListing.price ∧
    propertyFilter
      (mkFilterState
        { cheap := true, medium := true, expensive := true, unknown := true }
        initialSizeBounds (updatePriceBounds [capListing] initialPriceBounds)
        initialYearBounds (initialDateBounds 0) false [])
      capListing (0, 0) = false :=
  ⟨by decide, by decide,
    propertyFilter_rejects_over_cap [capListing] initialPriceBounds
      { cheap := true, medium := true, expensive := true, unknown := true }
      initialSizeBounds initialYearBounds (initialDateBounds 0) false []
      capListing (0, 0) (by decide) (by decide)⟩

/-- First listing of the end-to-end scenario of the spec: priced 200000,
50 square metres, built 1990, one history entry on 2024-01-01 (UTC
millisecond timestamp 1704067200000). -/
def scenarioListingA : PropertyRecord :=
  { id := "a", price := 200000, size_m2 := 50, year_built := some 1990,
    location := some (1, 2),
    price_history :=
      [{ price := some 190000, recorded_at := some 1704067200000 }],
    created_at := none }

/-- Second listing of the end-to-end scenario: priced 800000, size 0
(unknown), no year, no history. -/
def scenarioListingB : PropertyRecord :=
  { id := "b", price := 800000, size_m2 := 0, year_built := none,
    location := some (3, 4), price_history := [], created_at := none }

/-- The scenario listing array. -/
def scenarioListings : List PropertyRecord :=
  [scenarioListingA, scenarioListingB]

/-- All four category buckets visible. -/
def allVisible : VisibleCategories :=
  { cheap := true, medium := true, expensive := true, unknown := true }

/-- The filter state reached from the initial state after every derived
bounds effect has run on the scenario listings: the default, full-span
selected ranges for that data. -/
def scenarioState (now : ℤ) (vc : VisibleCategories) : FilterState :=
  mkFilterState vc
    (updateSizeBounds scenarioListings initialSizeBounds)
    (updatePriceBounds scenarioListings initialPriceBounds)
    (updateYearBounds scenarioListings initialYearBounds)
    (updateDateBounds scenarioListings (initialDateBounds now))
    false []

/-- The concrete value of the scenario filter state. -/
def scenarioDerivedState (vc : VisibleCategories) : FilterState :=
  { visibleCategories := vc
    sizeRange := (0, 500)
    priceRange := (200000, 800000)
    yearRange := (1990, 1990)
    dateRange := (1704067200000, 1704067200000)
    maxDateAvailable := 1704067200000
    isPolygonClosed := false
    polygonPoints := [] }

lemma scenario_sizeBounds :
    updateSizeBounds scenarioListings initialSizeBounds = initialSizeBounds := by
  have hcl : (⌈(50 : ℚ) / 10⌉ : ℤ) = 5 := by norm_num [Int.ceil_eq_iff]
  simp only [updateSizeBounds, scenarioListings, scenarioListingA,
    scenarioListingB, List.map_cons, List.map_nil, List.foldl_cons,
    List.foldl_nil]
  norm_num [max_def, hcl, initialSizeBounds]

lemma scenario_priceBounds :
    updatePriceBounds scenarioListings initialPriceBounds =
      { minPriceAvailable := 200000, maxPriceAvailable := 800000,
        priceRange := (200000, 800000) } := by
  have hpp : positivePrices scenarioListings = [200000, 800000] := by decide
  have hfl : (⌊(200000 : ℚ) / 10000⌋ : ℤ) = 20 := by norm_num
  have hcl : (⌈(800000 : ℚ) / 10000⌉ : ℤ) = 80 := by norm_num [Int.ceil_eq_iff]
  simp only [scenarioListings, scenarioListingA, scenarioListingB] at hpp
  simp only [updatePriceBounds, scenarioListings, scenarioListingA,
    scenarioListingB]
  rw [hpp]
  simp only [List.foldl_cons, List.foldl_nil]
  norm_num [min_def, max_def, hfl, hcl, PRICE_FILTER_CAP]

lemma scenario_yearBounds :
    updateYearBounds scenarioListings initialYearBounds =
      { minYearAvailable := 1990, maxYearAvailable := 1990,
        yearRange := (1990, 1990) } := by decide

lemma scenario_dateBounds (db : DateBounds) :
    updateDateBounds scenarioListings db =
      { minDateAvailable := 1704067200000, maxDateAvailable := 1704067200000,
        dateRange := (1704067200000, 1704067200000) } := by
  have hd : (scenarioListings.map propertyTimelineDates).flatten =
      [1704067200000] := by decide
  simp only [scenarioListings, scenarioListingA, scenarioListingB] at hd
  simp only [updateDateBounds, scenarioListings, scenarioListingA,
    scenarioListingB]
  rw [hd]
  rfl

lemma scenarioState_eval (now : ℤ) (vc : VisibleCategories) :
    scenarioState now vc = scenarioDerivedState vc := by
  unfold scenarioState
  rw [mkFilterState, scenario_sizeBounds, scenario_priceBounds,
    scenario_yearBounds, scenario_dateBounds]
  rfl

lemma scenario_resolved :
    scenarioListings.filterMap
      (fun property => property.location.map fun c => (property, c)) =
    [(scenarioListingA, ((1 : ℚ), (2 : ℚ))), (scenarioListingB, (3, 4))] := by
  decide

lemma scenario_features_all :
    filterFeatures (scenarioDerivedState allVisible) scenarioListings =
      [(scenarioListingA, (1, 2)), (scenarioListingB, (3, 4))] := by
  have ht : toDayStart 1704067200000 = 1704067200000 := by decide
  have hA : propertyFilter (scenarioDerivedState allVisible)
      scenarioListingA (1, 2) = true := by
    norm_num [propertyFilter, pricePass, sizePass, categoryPass, yearPass,
      timelinePass, polygonPass, getPropertyHistoryDates, scenarioListingA,
      scenarioDerivedState, allVisible, List.any, ht]
  have hB : propertyFilter (scenarioDerivedState allVisible)
      scenarioListingB (3, 4) = true := by
    norm_num [propertyFilter, pricePass, sizePass, categoryPass, yearPass,
      timelinePass, polygonPass, getPropertyHistoryDates, scenarioListingB,
      scenarioDerivedState, allVisible, List.any, ht]
  rw [filterFeatures, scenario_resolved]
  simp [List.filter, hA, hB]

lemma scenario_features_no_unknown :
    filterFeatures (scenarioDerivedState { allVisible with unknown := false })
      scenarioListings = [(scenarioListingA, (1, 2))] := by
  have ht : toDayStart 1704067200000 = 1704067200000 := by decide
  have hA : propertyFilter
      (scenarioDerivedState { allVisible with unknown := false })
      scenarioListingA (1, 2) = true := by
    norm_num [propertyFilter, pricePass, sizePass, categoryPass, yearPass,
      timelinePass, polygonPass, getPropertyHistoryDates, scenarioListingA,
      scenarioDerivedState, allVisible, List.any, ht]
  have hB : propertyFilter
      (scenarioDerivedState { allVisible with unknown := false })
      scenarioListingB (3, 4) = false := by
    norm_num [propertyFilter, pricePass, sizePass, categoryPass, yearPass,
      timelinePass, polygonPass, getPropertyHistoryDates, scenarioListingB,
      scenarioDerivedState, allVisible, List.any, ht]
  rw [filterFeatures, scenario_resolved]
  simp [List.filter, hA, hB]

lemma scenario_features_narrow_size :
    filterFeatures
      ({ scenarioDerivedState allVisible with sizeRange := (60, 100) })
      scenarioListings = [(scenarioListingB, (3, 4))] := by
  have ht : toDayStart 1704067200000 = 1704067200000 := by decide
  have hA : propertyFilter
      ({ scenarioDerivedState allVisible with sizeRange := (60, 100) })
      scenarioListingA (1, 2) = false := by
    norm_num [propertyFilter, pricePass, sizePass, scenarioListingA,
      scenarioDerivedState, allVisible]
  have hB : propertyFilter
      ({ scenarioDerivedState allVisible with sizeRange := (60, 100) })
      scenarioListingB (3, 4) = true := by
    norm_num [propertyFilter, pricePass, sizePass, categoryPass, yearPass,
      timelinePass, polygonPass, getPropertyHistoryDates, scenarioListingB,
      scenarioDerivedState, allVisible, List.any, ht]
  rw [filterFeatures, scenario_resolved]
  simp [List.filter, hA, hB]

/-- C5: on the spec scenario listings — one priced 200000, 50 square
metres, built 1990 with a single 2024-01-01 history entry, the other
priced 800000 with size 0, no year and no history — the default full-span
state produced by the derived bounds keeps both listings; hiding the
unknown bucket drops only the second; narrowing the selected size range to
[60, 100] drops the first while the second stays, since size 0 bypasses
the size filter and answers only to the category filter. -/
theorem scenario_filter_behaviour :
    ∀ now : ℤ,
      filterFeatures (scenarioState now allVisible) scenarioListings =
        [(scenarioListingA, (1, 2)), (scenarioListingB, (3, 4))] ∧
      filterFeatures (scenarioState now { allVisible with unknown := false })
        scenarioListings = [(scenarioListingA, (1, 2))] ∧
      filterFeatures
        ({ scenarioState now allVisible with sizeRange := (60, 100) })
        scenarioListings = [(scenarioListingB, (3, 4))] := by
  intro now
  rw [scenarioState_eval now allVisible,
    scenarioState_eval now { allVisible with unknown := false }]
  exact ⟨scenario_features_all, scenario_features_no_unknown,
    scenario_features_narrow_size⟩

end RETracker


